import Mathlib

/-
Verification development for the agentic-sales-coach decision engine.

The Python source of the repository is shallowly embedded below.  Python
strings are modelled as `List Char`; the standard string operations used by
the source (`strip`, `lower`, `upper`, `split`, `startswith`, `endswith`,
slicing, `join`) are reimplemented as executable Lean functions over
`List Char`, with whitespace taken to be the ASCII whitespace characters.
The external language-model endpoint (the Oracle of the spec) is modelled as
a function argument; its chat reply is an `Except` value so that a raised
network error is representable.
-/

set_option autoImplicit false

namespace SalesCoach

/-- Python strings, modelled as lists of characters. -/
abbrev PyStr := List Char

/-- ASCII whitespace, the characters stripped by the Python `str.strip()`
and used as separators by `str.split()` with no arguments. -/
def isSpace (c : Char) : Bool :=
  c == ' ' || c == '\t' || c == '\n' || c == '\r' || c == '\x0b' || c == '\x0c'

/-- The double-quote character. -/
def quoteChar : Char := Char.ofNat 34

/-- The single-quote character. -/
def aposChar : Char := Char.ofNat 39

/-- The newline character. -/
def nlChar : Char := '\n'

/-- Python `s.strip()`: remove leading and trailing whitespace. -/
def pyStrip (s : PyStr) : PyStr :=
  ((s.dropWhile isSpace).reverse.dropWhile isSpace).reverse

/-- Python `s.strip(chars)`: remove leading and trailing characters drawn
from the set `cs`. -/
def pyStripChars (cs : PyStr) (s : PyStr) : PyStr :=
  ((s.dropWhile cs.contains).reverse.dropWhile cs.contains).reverse

/-- Python `s.lower()` (ASCII). -/
def pyLower (s : PyStr) : PyStr := s.map Char.toLower

/-- Python `s.upper()` (ASCII). -/
def pyUpper (s : PyStr) : PyStr := s.map Char.toUpper

/-- Python `s.startswith(p)`. -/
def pyStartsWith : PyStr → PyStr → Bool
  | _, [] => true
  | [], _ :: _ => false
  | c :: cs, p :: ps => c == p && pyStartsWith cs ps

/-- Python `s.endswith(p)`. -/
def pyEndsWith (s p : PyStr) : Bool := pyStartsWith s.reverse p.reverse

/-- Python `s.split(sep)` for a one-character separator: splitting the empty
string yields `[""]`, and adjacent separators yield empty pieces. -/
def pySplitOn (sep : Char) : PyStr → List PyStr
  | [] => [[]]
  | c :: rest =>
    if c == sep then [] :: pySplitOn sep rest
    else
      match pySplitOn sep rest with
      | [] => [[c]]
      | h :: t => (c :: h) :: t

/-- Helper for `pySplitWs`, carrying the current (reversed) word. -/
def pySplitWsAux : PyStr → PyStr → List PyStr
  | [], acc => if acc.isEmpty then [] else [acc.reverse]
  | c :: rest, acc =>
    if isSpace c then
      if acc.isEmpty then pySplitWsAux rest []
      else acc.reverse :: pySplitWsAux rest []
    else pySplitWsAux rest (c :: acc)

/-- Python `s.split()` with no arguments: split on runs of whitespace and
discard empty pieces. -/
def pySplitWs (s : PyStr) : List PyStr := pySplitWsAux s []

/-- Python `sep.join(xs)` for a one-character separator. -/
def pyJoin (sep : Char) : List PyStr → PyStr
  | [] => []
  | [l] => l
  | l :: l' :: ls => l ++ sep :: pyJoin sep (l' :: ls)

/-- Python `l[-n:]`, the last `n` elements of a list. -/
def lastN {α : Type} (n : Nat) (l : List α) : List α := l.drop (l.length - n)

-- ## Data model

/-- The speaker tag attached to each history entry by `main.py`
(the literal strings "presenter" and "customer"). -/
inductive Speaker where
  | presenter
  | customer
deriving DecidableEq, Repr

/-- The string the source stores in the `speaker` field. -/
def speakerStr : Speaker → PyStr
  | Speaker.presenter => "presenter".toList
  | Speaker.customer => "customer".toList

/-- One entry of `conversation_history` in
`websocket_interactive_presentation`: a dict with `speaker` and `text`. -/
structure Turn where
  speaker : Speaker
  text : PyStr
deriving DecidableEq, Repr

/-- The per-connection state of `websocket_interactive_presentation`:
the `conversation_history` list and the `greeting_sent` flag. -/
structure SessionState where
  history : List Turn
  greeting_sent : Bool
deriving DecidableEq, Repr

/-- A message sent to the client over the websocket by the pause branch. -/
inductive OutMsg where
  | avatar_speak (text : PyStr)
deriving DecidableEq, Repr

/-- The Oracle: the external chat-completion endpoint, abstracted as a
function of the two variable parts of the fixed prompt template built by
`generate_natural_response` (the rendered context window and the presenter
text).  `Except.error` models a raised exception. -/
abbrev ChatOracle := PyStr → PyStr → Except PyStr PyStr

-- ## Rendering of history lines (shared by the prompt context and the
-- final transcript in the source)

/-- The rendered form of one history entry: the uppercased speaker tag,
a colon and a space, then the turn text, per the f-string in the source. -/
def renderedLine (h : Turn) : PyStr :=
  pyUpper (speakerStr h.speaker) ++ (": ").toList ++ h.text

/-- All history entries rendered in order. -/
def renderedLines (hist : List Turn) : List PyStr := hist.map renderedLine

/-- The `full_transcript` string built by the `end_presentation` branch of
`main.py`: the rendered lines joined by newlines. -/
def full_transcript (hist : List Turn) : PyStr :=
  pyJoin nlChar (renderedLines hist)

/-- The `context` string built inside `generate_natural_response`: the last
4 history entries rendered and joined by newlines. -/
def contextOf (hist : List Turn) : PyStr :=
  pyJoin nlChar (renderedLines (lastN 4 hist))

-- ## Turn classifier (the inline `is_question` computation of
-- `generate_natural_response` in sales_coach_agent.py)

/-- The fixed question-phrase set of the source. -/
def questionPhrases : List PyStr :=
  [ "what do you think".toList
  , "any questions".toList
  , "does that make sense".toList
  , "do you have any".toList
  , "tell me what you".toList ]

/-- The `sentence_starts` list comprehension of the source:
`[s.strip().lower()[:20] for s in presenter_text.split(".") if s.strip()]`. -/
def sentence_starts (presenter_text : PyStr) : List PyStr :=
  ((pySplitOn '.' presenter_text).filter (fun s => !(pyStrip s).isEmpty)).map
    (fun s => (pyLower (pyStrip s)).take 20)

/-- The `is_question` value computed by `generate_natural_response`:
trimmed text ends with one or two question marks, or some sentence start
begins with one of the fixed question phrases. -/
def is_question (presenter_text : PyStr) : Bool :=
  (pyEndsWith (pyStrip presenter_text) ['?'] ||
   pyEndsWith (pyStrip presenter_text) ['?', '?']) ||
  (sentence_starts presenter_text).any
    (fun start => questionPhrases.any (fun q => pyStartsWith start q))

-- ## The decision procedure (generate_natural_response)

/-- The literal token "SILENT". -/
def silentTok : PyStr := "SILENT".toList

/-- The literal token "SILENCE". -/
def silenceTok : PyStr := "SILENCE".toList

/-- The literal token "NO RESPONSE". -/
def noResponseTok : PyStr := "NO RESPONSE".toList

/-- The fixed fallback reply substituted when a direct question got an
empty or SILENT Oracle reply.  In the source this is the text
"That is a good question..." with an apostrophe-s contraction. -/
def fallbackReply : PyStr :=
  "That".toList ++ [aposChar] ++ "s a good question. Could you elaborate a bit more?".toList

/-- The quote characters stripped off the Oracle reply by
`strip* of a double and a single quote` in the source. -/
def quoteChars : PyStr := [quoteChar, aposChar]

/-- The quote-and-whitespace stripping the source applies to the raw Oracle
reply: `content.strip()` followed by stripping surrounding quotes. -/
def stripReply (raw : PyStr) : PyStr := pyStripChars quoteChars (pyStrip raw)

/-- `generate_natural_response` from sales_coach_agent.py.  Builds the
context window, computes `is_question`, invokes the Oracle once, strips the
reply, and applies the speak/silent policy.  Returning `[]` (the empty
string) is the silent decision; a raised Oracle error is caught and mapped
to silence by the surrounding try/except. -/
def generate_natural_response (presenter_text : PyStr) (conversation_history : List Turn)
    (oracle : ChatOracle) : PyStr :=
  match oracle (contextOf conversation_history) presenter_text with
  | Except.error _ => []
  | Except.ok raw =>
    let avatar_response := stripReply raw
    if is_question presenter_text then
      if avatar_response = [] ∨ pyUpper avatar_response ∈ [silentTok, silenceTok] then
        fallbackReply
      else avatar_response
    else if pyUpper avatar_response ∈ [silentTok, silenceTok, noResponseTok] then []
    else if avatar_response = [] ∨ (pyStrip avatar_response).length < 2 then []
    else avatar_response

-- ## The pause-event branch of websocket_interactive_presentation (main.py)

/-- The `pause_detected` branch of `websocket_interactive_presentation`:
strips the incoming `recent_text`, applies the too-short gate and the
greeting gate, and otherwise invokes `generate_natural_response`, emitting
an `avatar_speak` message and appending to history per the source.  The
returned `Bool` records whether the Oracle-backed decision procedure was
invoked for this event. -/
def pause_detected (st : SessionState) (recent_raw : PyStr) (oracle : ChatOracle) :
    SessionState × List OutMsg × Bool :=
  let recent_text := pyStrip recent_raw
  if recent_text = [] ∨ (pySplitWs recent_text).length < 5 then (st, [], false)
  else if st.greeting_sent = false then (st, [], false)
  else
    let response := generate_natural_response recent_text st.history oracle
    if response ≠ [] ∧ pyStrip response ≠ [] ∧ 2 < response.length then
      ({ st with history := st.history ++
          [⟨Speaker.presenter, recent_text⟩, ⟨Speaker.customer, response⟩] },
       [OutMsg.avatar_speak response], true)
    else
      ({ st with history := st.history ++ [⟨Speaker.presenter, recent_text⟩] },
       [], true)

-- ## JSON values and the pydantic report models (models/report.py)

/-- JSON values, the possible results of decoding the Oracle reply in
`analyze_presentation`.  Numbers are modelled as rationals. -/
inductive Json where
  | null
  | bool (b : Bool)
  | num (q : Rat)
  | str (s : PyStr)
  | arr (xs : List Json)
  | obj (fields : List (PyStr × Json))

/-- The `ImprovementItem` pydantic model. -/
structure ImprovementItem where
  area : PyStr
  current_state : PyStr
  recommendation : PyStr
  example' : Option PyStr
deriving DecidableEq, Repr

/-- The `RuleViolation` pydantic model. -/
structure RuleViolation where
  rule_category : PyStr
  rule_name : PyStr
  severity : PyStr
  description : PyStr
  example' : Option PyStr
  suggestion : PyStr
deriving DecidableEq, Repr

/-- The `CriteriaScores` pydantic model: seven numeric criteria, each
constrained to the range 1 to 10. -/
structure CriteriaScores where
  value_proposition : Rat
  objection_handling : Rat
  active_listening : Rat
  question_quality : Rat
  call_to_action : Rat
  engagement : Rat
  rule_compliance : Rat
deriving DecidableEq, Repr

/-- The `SalesCoachingReport` pydantic model. -/
structure SalesCoachingReport where
  overall_score : Rat
  performance_level : PyStr
  criteria_scores : CriteriaScores
  strengths : List PyStr
  improvements : List ImprovementItem
  rule_violations : List RuleViolation
  summary : PyStr
  next_steps : List PyStr
deriving DecidableEq, Repr

-- ## Pydantic-style validation of the JSON fields

/-- Keyword-argument lookup: first binding of `key` among the fields. -/
def lookupJson (fields : List (PyStr × Json)) (key : PyStr) : Option Json :=
  (fields.find? (fun kv => kv.1 = key)).map Prod.snd

/-- Validation of a required string field value. -/
def asStr : Json → Option PyStr
  | Json.str s => some s
  | _ => none

/-- Validation of a numeric field value constrained by `ge=1, le=10`. -/
def asScore : Json → Option Rat
  | Json.num q => if 1 ≤ q ∧ q ≤ 10 then some q else none
  | _ => none

/-- Validation of a `List[str]` field value. -/
def asStrList : Json → Option (List PyStr)
  | Json.arr xs => xs.mapM asStr
  | _ => none

/-- Validation of an `Optional[str]` field with default `None`: missing or
null yields `None`, a string is accepted, anything else fails. -/
def asOptStrField (fields : List (PyStr × Json)) (key : PyStr) : Option (Option PyStr) :=
  match lookupJson fields key with
  | none => some none
  | some Json.null => some none
  | some (Json.str s) => some (some s)
  | some _ => none

/-- Construction of an `ImprovementItem` from a JSON value (pydantic
validation of one list element). -/
def mkImprovementItem : Json → Option ImprovementItem
  | Json.obj f => do
    let area ← lookupJson f "area".toList >>= asStr
    let current_state ← lookupJson f "current_state".toList >>= asStr
    let recommendation ← lookupJson f "recommendation".toList >>= asStr
    let example' ← asOptStrField f "example".toList
    some ⟨area, current_state, recommendation, example'⟩
  | _ => none

/-- Construction of a `RuleViolation` from a JSON value. -/
def mkRuleViolation : Json → Option RuleViolation
  | Json.obj f => do
    let rule_category ← lookupJson f "rule_category".toList >>= asStr
    let rule_name ← lookupJson f "rule_name".toList >>= asStr
    let severity ← lookupJson f "severity".toList >>= asStr
    let description ← lookupJson f "description".toList >>= asStr
    let example' ← asOptStrField f "example".toList
    let suggestion ← lookupJson f "suggestion".toList >>= asStr
    some ⟨rule_category, rule_name, severity, description, example', suggestion⟩
  | _ => none

/-- Construction of a `CriteriaScores` from a JSON value. -/
def mkCriteriaScores : Json → Option CriteriaScores
  | Json.obj f => do
    let value_proposition ← lookupJson f "value_proposition".toList >>= asScore
    let objection_handling ← lookupJson f "objection_handling".toList >>= asScore
    let active_listening ← lookupJson f "active_listening".toList >>= asScore
    let question_quality ← lookupJson f "question_quality".toList >>= asScore
    let call_to_action ← lookupJson f "call_to_action".toList >>= asScore
    let engagement ← lookupJson f "engagement".toList >>= asScore
    let rule_compliance ← lookupJson f "rule_compliance".toList >>= asScore
    some ⟨value_proposition, objection_handling, active_listening,
          question_quality, call_to_action, engagement, rule_compliance⟩
  | _ => none

/-- Pydantic validation of `SalesCoachingReport (kwargs)`: every field
without a default is required; `rule_violations` defaults to the empty
list; extra keyword arguments are ignored (pydantic default); a missing
required field or a failed constraint raises, modelled as `none`. -/
def mkSalesCoachingReport (fields : List (PyStr × Json)) : Option SalesCoachingReport := do
  let overall_score ← lookupJson fields "overall_score".toList >>= asScore
  let performance_level ← lookupJson fields "performance_level".toList >>= asStr
  let criteria_scores ← lookupJson fields "criteria_scores".toList >>= mkCriteriaScores
  let strengths ← lookupJson fields "strengths".toList >>= asStrList
  let improvements ← lookupJson fields "improvements".toList >>=
    (fun j => match j with
      | Json.arr xs => xs.mapM mkImprovementItem
      | _ => none)
  let rule_violations ← (match lookupJson fields "rule_violations".toList with
    | none => some []
    | some (Json.arr xs) => xs.mapM mkRuleViolation
    | some _ => none)
  let summary ← lookupJson fields "summary".toList >>= asStr
  let next_steps ← lookupJson fields "next_steps".toList >>= asStrList
  some ⟨overall_score, performance_level, criteria_scores, strengths,
        improvements, rule_violations, summary, next_steps⟩

-- ## analyze_presentation (sales_coach_agent.py)

/-- The errors `analyze_presentation` can raise to its caller:
`invalidJson` is the ValueError raised on a JSON decode failure,
`validationError` is the re-raised pydantic ValidationError,
`notAnObject` is the re-raised TypeError when the decoded value is not a
dict, and `oracleError` is a re-raised failure of the chat call itself. -/
inductive AnalysisError where
  | invalidJson
  | validationError
  | notAnObject
  | oracleError
deriving DecidableEq, Repr

/-- Whether an analysis result is a successfully returned report. -/
def resultOk {α : Type} : Except AnalysisError α → Bool
  | Except.ok _ => true
  | Except.error _ => false

/-- The Oracle as seen by `analyze_presentation`: the reply to the n-th
chat call, already passed through `json.loads` (`none` models a reply the
JSON decoder rejects, `some j` a successful decode).  `Except.error`
models a raised failure of the chat call itself. -/
abbrev AnalysisOracle := Nat → Except Unit (Option Json)

/-- `analyze_presentation` from sales_coach_agent.py: one chat call, JSON
decode, pydantic validation; a decode failure raises ValueError, any other
failure is re-raised; there is no retry.  The second component counts the
chat calls made (the body consults only `oracle 0`, exactly once). -/
def analyze_presentation (oracle : AnalysisOracle) :
    Except AnalysisError SalesCoachingReport × Nat :=
  match oracle 0 with
  | Except.error _ => (Except.error AnalysisError.oracleError, 1)
  | Except.ok none => (Except.error AnalysisError.invalidJson, 1)
  | Except.ok (some (Json.obj f)) =>
    (match mkSalesCoachingReport f with
     | some report => Except.ok report
     | none => Except.error AnalysisError.validationError, 1)
  | Except.ok (some _) => (Except.error AnalysisError.notAnObject, 1)

-- ## The end_presentation branch of websocket_interactive_presentation

/-- The keyword arguments of the fallback
`SalesCoachingReport(overall_score=0.0, scores=dict(), ...)` construction in
the `end_presentation` branch of main.py. -/
def fallbackReportKwargs : List (PyStr × Json) :=
  [ ("overall_score".toList, Json.num 0)
  , ("scores".toList, Json.obj [])
  , ("strengths".toList, Json.arr [])
  , ("areas_for_improvement".toList, Json.arr [])
  , ("specific_recommendations".toList, Json.arr [])
  , ("next_steps".toList, Json.arr []) ]

/-- The `end_presentation` branch of `websocket_interactive_presentation`:
renders the full transcript; a non-empty transcript goes to
`analyze_presentation`, an empty one to the fallback minimal-report
construction, whose pydantic validation failure raises to the caller. -/
def end_presentation (st : SessionState) (oracle : AnalysisOracle) :
    Except AnalysisError SalesCoachingReport :=
  let transcript := full_transcript st.history
  if transcript ≠ [] then (analyze_presentation oracle).1
  else
    match mkSalesCoachingReport fallbackReportKwargs with
    | some report => Except.ok report
    | none => Except.error AnalysisError.validationError

-- ## Spec-side definitions (transcribed from the words of the claims, to
-- be compared with the code-side definitions above)

/-- The reply the spec requires for a direct question: the fixed fallback
when the stripped Oracle reply is empty or case-insensitively equals
SILENT or SILENCE, the quote-and-whitespace-stripped reply otherwise. -/
def specDirectQuestionReply (raw : PyStr) : PyStr :=
  if stripReply raw = [] ∨ pyUpper (stripReply raw) = silentTok ∨
      pyUpper (stripReply raw) = silenceTok then
    fallbackReply
  else stripReply raw

/-- The decision the spec requires for a non-question utterance: silent on
a case-insensitive SILENT, SILENCE or NO RESPONSE reply, silent on an
empty or shorter-than-2-after-trimming reply, the stripped reply
otherwise. -/
def specNonQuestionReply (raw : PyStr) : PyStr :=
  if pyUpper (stripReply raw) = silentTok ∨ pyUpper (stripReply raw) = silenceTok ∨
      pyUpper (stripReply raw) = noResponseTok then []
  else if stripReply raw = [] ∨ (pyStrip (stripReply raw)).length < 2 then []
  else stripReply raw

/-- The classifier as worded by the claim: the trimmed utterance ends in a
question mark, or the lowercase 20-character prefix of some non-empty
trimmed sentence starts with a member of the fixed phrase set. -/
def specIsQuestion (u : PyStr) : Bool :=
  pyEndsWith (pyStrip u) ['?'] ||
  (pySplitOn '.' u).any (fun s =>
    !(pyStrip s).isEmpty &&
    questionPhrases.any (fun q => pyStartsWith ((pyLower (pyStrip s)).take 20) q))

/-- The spec-side success condition of the analysis request: the decoded
reply is a JSON object that validates as a `SalesCoachingReport`. -/
def specAnalysisOk : Except Unit (Option Json) → Bool
  | Except.ok (some (Json.obj f)) => (mkSalesCoachingReport f).isSome
  | _ => false

-- ## Helper lemmas

/-- Reduction of `generate_natural_response` under a successful Oracle
reply. -/
theorem gnr_ok (t : PyStr) (hist : List Turn) (raw : PyStr) (oracle : ChatOracle)
    (ho : oracle (contextOf hist) t = Except.ok raw) :
    generate_natural_response t hist oracle =
      (if is_question t then
        if stripReply raw = [] ∨ pyUpper (stripReply raw) ∈ [silentTok, silenceTok] then
          fallbackReply
        else stripReply raw
      else if pyUpper (stripReply raw) ∈ [silentTok, silenceTok, noResponseTok] then []
      else if stripReply raw = [] ∨ (pyStrip (stripReply raw)).length < 2 then []
      else stripReply raw) := by
  unfold generate_natural_response
  rw [ho]

/-- The fixed fallback reply is not the empty string. -/
theorem fallbackReply_ne_nil : fallbackReply ≠ [] := by decide

/-- A string starting with a two-character prefix starts with its first
character. -/
theorem startsWith_pair (l : PyStr) (a b : Char)
    (h : pyStartsWith l [a, b] = true) : pyStartsWith l [a] = true := by
  cases l with
  | nil => simp [pyStartsWith] at h
  | cons c cs =>
    simp [pyStartsWith] at h ⊢
    exact h.1

/-- Ending in two question marks implies ending in one. -/
theorem endsWith_qq_imp (s : PyStr) (h : pyEndsWith s ['?', '?'] = true) :
    pyEndsWith s ['?'] = true := by
  unfold pyEndsWith at h ⊢
  have h2 : List.reverse ['?', '?'] = ['?', '?'] := rfl
  have h1 : List.reverse ['?'] = ['?'] := rfl
  rw [h2] at h
  rw [h1]
  exact startsWith_pair s.reverse '?' '?' h

/-- `any` over a filtered-and-mapped list is `any` of the combined
predicate. -/
theorem any_filter_map {α β : Type} (l : List α) (p : α → Bool) (f : α → β) (q : β → Bool) :
    ((l.filter p).map f).any q = l.any (fun a => p a && q (f a)) := by
  induction l with
  | nil => rfl
  | cons a t ih =>
    by_cases h : p a = true
    · simp [List.filter_cons, h, ih]
    · rw [Bool.not_eq_true] at h
      simp [List.filter_cons, h, ih]

-- ## Claims C1 to C6

/-- C1: for every presenter utterance classified as a direct question and
every reply the Oracle returns, the decision procedure speaks with
non-empty text: the fixed fallback when the stripped reply is empty or
case-insensitively SILENT or SILENCE, the stripped reply otherwise; a
direct question never results in a silent decision. -/
theorem c1_direct_question_always_speaks
    (t : PyStr) (hist : List Turn) (raw : PyStr) (oracle : ChatOracle)
    (hq : is_question t = true)
    (ho : oracle (contextOf hist) t = Except.ok raw) :
    generate_natural_response t hist oracle = specDirectQuestionReply raw ∧
    generate_natural_response t hist oracle ≠ [] := by
  rw [gnr_ok t hist raw oracle ho]
  unfold specDirectQuestionReply
  simp only [hq, if_true, List.mem_cons, List.not_mem_nil, or_false]
  constructor
  · trivial
  · split_ifs with h
    · exact fallbackReply_ne_nil
    · push_neg at h
      exact h.1

/-- C1 witness: a concrete direct question with Oracle reply SILENT. -/
theorem c1_witness :
    is_question ("Any questions?").toList = true ∧
    (generate_natural_response ("Any questions?").toList []
        (fun _ _ => Except.ok ("SILENT").toList) =
      specDirectQuestionReply ("SILENT").toList ∧
     generate_natural_response ("Any questions?").toList []
        (fun _ _ => Except.ok ("SILENT").toList) ≠ []) :=
  ⟨by decide,
   c1_direct_question_always_speaks ("Any questions?").toList [] ("SILENT").toList
     (fun _ _ => Except.ok ("SILENT").toList) (by decide) rfl⟩

/-- C4: for every non-question utterance, the decision is silent on a
case-insensitive SILENT, SILENCE or NO RESPONSE reply, silent on an empty
or shorter-than-2-after-trimming reply, and otherwise speaks the stripped
reply. -/
theorem c4_non_question_policy
    (t : PyStr) (hist : List Turn) (raw : PyStr) (oracle : ChatOracle)
    (hq : is_question t = false)
    (ho : oracle (contextOf hist) t = Except.ok raw) :
    generate_natural_response t hist oracle = specNonQuestionReply raw := by
  rw [gnr_ok t hist raw oracle ho]
  unfold specNonQuestionReply
  simp only [hq, Bool.false_eq_true, if_false, List.mem_cons, List.not_mem_nil, or_false]

/-- C4 witness: a concrete statement utterance with Oracle reply SILENT. -/
theorem c4_witness :
    is_question ("So our platform reduces onboarding time significantly.").toList = false ∧
    generate_natural_response
        ("So our platform reduces onboarding time significantly.").toList []
        (fun _ _ => Except.ok ("SILENT").toList) =
      specNonQuestionReply ("SILENT").toList :=
  ⟨by decide,
   c4_non_question_policy
     ("So our platform reduces onboarding time significantly.").toList []
     ("SILENT").toList (fun _ _ => Except.ok ("SILENT").toList) (by decide) rfl⟩

/-- C3: the classifier marks an utterance a direct question exactly when
the trimmed utterance ends in a question mark or the lowercase
20-character prefix of some non-empty trimmed period-separated sentence
starts with one of the five fixed phrases. -/
theorem c3_classifier_matches_spec (u : PyStr) : is_question u = specIsQuestion u := by
  unfold is_question specIsQuestion sentence_starts
  rw [any_filter_map]
  cases hq : pyEndsWith (pyStrip u) ['?'] with
  | true => simp
  | false =>
    have hqq : pyEndsWith (pyStrip u) ['?', '?'] = false := by
      cases h2 : pyEndsWith (pyStrip u) ['?', '?'] with
      | false => rfl
      | true => exact absurd (endsWith_qq_imp (pyStrip u) h2) (by simp [hq])
    simp [hqq]

/-- C6: a raised Oracle error never escapes the decision procedure; the
result is the silent decision (the empty string). -/
theorem c6_oracle_failure_is_silent
    (t : PyStr) (hist : List Turn) (e : PyStr) (oracle : ChatOracle)
    (ho : oracle (contextOf hist) t = Except.error e) :
    generate_natural_response t hist oracle = [] := by
  unfold generate_natural_response
  rw [ho]

/-- C6 witness: a concrete failing Oracle yields the silent decision. -/
theorem c6_witness :
    (fun (_ _ : PyStr) => Except.error (ε := PyStr) (α := PyStr) ("network error").toList)
        (contextOf []) ("Tell me about pricing today please now").toList =
      Except.error ("network error").toList ∧
    generate_natural_response ("Tell me about pricing today please now").toList []
        (fun _ _ => Except.error ("network error").toList) = [] :=
  ⟨rfl,
   c6_oracle_failure_is_silent ("Tell me about pricing today please now").toList []
     ("network error").toList (fun _ _ => Except.error ("network error").toList) rfl⟩

/-- C2: every message the pause branch emits is an `avatar_speak` whose
text is non-empty, not all whitespace, and at least 3 characters long;
no speak decision with empty text is ever emitted. -/
theorem c2_emitted_speak_text_invariant (st : SessionState) (raw : PyStr) (oracle : ChatOracle) :
    (pause_detected st raw oracle).2.1 = [] ∨
    ∃ r, (pause_detected st raw oracle).2.1 = [OutMsg.avatar_speak r] ∧
      r ≠ [] ∧ pyStrip r ≠ [] ∧ 2 < r.length := by
  unfold pause_detected
  dsimp only
  split_ifs with h1 h2 h3
  · exact Or.inl rfl
  · exact Or.inl rfl
  · exact Or.inr ⟨_, rfl, h3.1, h3.2.1, h3.2.2⟩
  · exact Or.inl rfl

/-- C5: a pause event whose trimmed text is empty or has fewer than five
whitespace-delimited words is dropped before the Oracle is consulted: the
state is unchanged, nothing is emitted, and the decision procedure is not
invoked. -/
theorem c5_short_text_never_reaches_oracle (st : SessionState) (raw : PyStr) (oracle : ChatOracle)
    (h : pyStrip raw = [] ∨ (pySplitWs (pyStrip raw)).length < 5) :
    pause_detected st raw oracle = (st, [], false) := by
  unfold pause_detected
  rw [if_pos h]

/-- C5 witness: the one-word pause text "Yes." is dropped. -/
theorem c5_witness :
    (pyStrip ("Yes.").toList = [] ∨ (pySplitWs (pyStrip ("Yes.").toList)).length < 5) ∧
    pause_detected ⟨[], true⟩ ("Yes.").toList (fun _ _ => Except.ok ("Hello!").toList) =
      (⟨[], true⟩, [], false) :=
  ⟨by decide,
   c5_short_text_never_reaches_oracle ⟨[], true⟩ ("Yes.").toList
     (fun _ _ => Except.ok ("Hello!").toList) (by decide)⟩

/-- C10: a pause event rejected by either gate (too-short text, or greeting
not yet sent) leaves the session state unchanged, makes no Oracle call,
sends no message, and appends nothing to the history. -/
theorem c10_rejected_pause_has_no_effect (st : SessionState) (raw : PyStr) (oracle : ChatOracle)
    (h : pyStrip raw = [] ∨ (pySplitWs (pyStrip raw)).length < 5 ∨ st.greeting_sent = false) :
    pause_detected st raw oracle = (st, [], false) := by
  unfold pause_detected
  rcases h with h | h | h
  · rw [if_pos (Or.inl h)]
  · rw [if_pos (Or.inr h)]
  · by_cases hg : pyStrip raw = [] ∨ (pySplitWs (pyStrip raw)).length < 5
    · rw [if_pos hg]
    · rw [if_neg hg, if_pos h]

/-- C10 witness: a long-enough pause text arriving before the greeting is
dropped without touching the state. -/
theorem c10_witness :
    (pyStrip ("this sentence has more than five words total").toList = [] ∨
     (pySplitWs (pyStrip ("this sentence has more than five words total").toList)).length < 5 ∨
     (SessionState.mk [] false).greeting_sent = false) ∧
    pause_detected ⟨[], false⟩ ("this sentence has more than five words total").toList
        (fun _ _ => Except.ok ("Hello!").toList) = (⟨[], false⟩, [], false) :=
  ⟨by decide,
   c10_rejected_pause_has_no_effect ⟨[], false⟩
     ("this sentence has more than five words total").toList
     (fun _ _ => Except.ok ("Hello!").toList) (by decide)⟩

-- ## Transcript round trip (C7)

/-- Splitting a string that does not contain the separator yields the
singleton list of that string. -/
theorem pySplitOn_no_sep (sep : Char) (l : PyStr) (h : sep ∉ l) :
    pySplitOn sep l = [l] := by
  induction l with
  | nil => rfl
  | cons c t ih =>
    have hc : ¬ c == sep := by
      simp only [beq_iff_eq]
      intro hcs
      exact h (hcs ▸ List.mem_cons_self c t)
    have ht : sep ∉ t := fun hm => h (List.mem_cons_of_mem _ hm)
    simp [pySplitOn, hc, ih ht]

/-- Splitting a string of the form `l ++ sep :: rest` where `l` is free of
the separator peels off `l` as the first piece. -/
theorem pySplitOn_append (sep : Char) (l rest : PyStr) (h : sep ∉ l) :
    pySplitOn sep (l ++ sep :: rest) = l :: pySplitOn sep rest := by
  induction l with
  | nil => simp [pySplitOn]
  | cons c t ih =>
    have hc : ¬ c == sep := by
      simp only [beq_iff_eq]
      intro hcs
      exact h (hcs ▸ List.mem_cons_self c t)
    have ht : sep ∉ t := fun hm => h (List.mem_cons_of_mem _ hm)
    simp [pySplitOn, hc, ih ht]

/-- Splitting a separator-joined list of separator-free non-empty pieces
recovers the pieces. -/
theorem pySplitOn_pyJoin (sep : Char) :
    ∀ (lines : List PyStr), lines ≠ [] → (∀ l ∈ lines, sep ∉ l) →
      pySplitOn sep (pyJoin sep lines) = lines
  | [], hne, _ => absurd rfl hne
  | [l], _, h => by
    simp only [pyJoin]
    exact pySplitOn_no_sep sep l (h l (by simp))
  | l :: l' :: ls, _, h => by
    have ih := pySplitOn_pyJoin sep (l' :: ls) (by simp)
      (fun x hx => h x (List.mem_cons_of_mem _ hx))
    simp only [pyJoin]
    rw [pySplitOn_append sep l _ (h l (by simp)), ih]

/-- The uppercased speaker tags contain no newline. -/
theorem nl_not_mem_speaker (s : Speaker) : nlChar ∉ pyUpper (speakerStr s) := by
  cases s <;> decide

/-- A rendered history line contains no newline when the turn text does
not. -/
theorem nl_not_mem_renderedLine (h : Turn) (ht : nlChar ∉ h.text) :
    nlChar ∉ renderedLine h := by
  unfold renderedLine
  simp only [List.mem_append]
  rintro ((hs | hc) | hx)
  · exact nl_not_mem_speaker h.speaker hs
  · revert hc
    decide
  · exact ht hx

/-- C7 counterexample: with a single turn whose text contains a newline the
re-split transcript has 2 lines, not 1; and with zero turns it has 1 line,
not 0.  The round trip claimed for arbitrary turn text fails at both
inputs. -/
theorem c7_counterexample :
    (["a\nb".toList].map (Turn.mk Speaker.presenter)).length = 1 ∧
    (pySplitOn nlChar (full_transcript
      (["a\nb".toList].map (Turn.mk Speaker.presenter)))).length = 2 ∧
    ([] : List Turn).length = 0 ∧
    (pySplitOn nlChar (full_transcript ([] : List Turn))).length = 1 := by
  decide

/-- C7 (amended): for every non-empty history whose turn texts contain no
newline, re-splitting the rendered transcript on newlines yields exactly
the rendered "SPEAKER: text" lines, one per appended turn, in append
order. -/
theorem c7_transcript_roundtrip (hist : List Turn)
    (h1 : hist ≠ []) (h2 : ∀ h ∈ hist, nlChar ∉ h.text) :
    pySplitOn nlChar (full_transcript hist) = renderedLines hist ∧
    (pySplitOn nlChar (full_transcript hist)).length = hist.length := by
  have hlines : ∀ l ∈ renderedLines hist, nlChar ∉ l := by
    intro l hl
    rcases List.mem_map.mp hl with ⟨h, hh, rfl⟩
    exact nl_not_mem_renderedLine h (h2 h hh)
  have hne : renderedLines hist ≠ [] := by
    unfold renderedLines
    simpa using h1
  have hsplit := pySplitOn_pyJoin nlChar (renderedLines hist) hne hlines
  refine ⟨hsplit, ?_⟩
  show (pySplitOn nlChar (pyJoin nlChar (renderedLines hist))).length = hist.length
  rw [hsplit]
  unfold renderedLines
  exact List.length_map hist renderedLine

/-- C7 witness: a concrete two-turn history round-trips to its two rendered
lines. -/
theorem c7_witness :
    ([Turn.mk Speaker.presenter ("Hello there team").toList,
      Turn.mk Speaker.customer ("Sounds good").toList] ≠ []) ∧
    (∀ h ∈ [Turn.mk Speaker.presenter ("Hello there team").toList,
            Turn.mk Speaker.customer ("Sounds good").toList], nlChar ∉ h.text) ∧
    (pySplitOn nlChar (full_transcript
        [Turn.mk Speaker.presenter ("Hello there team").toList,
         Turn.mk Speaker.customer ("Sounds good").toList]) =
      renderedLines
        [Turn.mk Speaker.presenter ("Hello there team").toList,
         Turn.mk Speaker.customer ("Sounds good").toList] ∧
     (pySplitOn nlChar (full_transcript
        [Turn.mk Speaker.presenter ("Hello there team").toList,
         Turn.mk Speaker.customer ("Sounds good").toList])).length = 2) :=
  ⟨by decide, by decide,
   c7_transcript_roundtrip
     [Turn.mk Speaker.presenter ("Hello there team").toList,
      Turn.mk Speaker.customer ("Sounds good").toList] (by decide) (by decide)⟩

/-- The report validation is not vacuous: a well-shaped JSON object is
accepted. -/
theorem mkSalesCoachingReport_accepts_valid :
    (mkSalesCoachingReport
      [ ("overall_score".toList, Json.num 7)
      , ("performance_level".toList, Json.str ("good".toList))
      , ("criteria_scores".toList, Json.obj
          [ ("value_proposition".toList, Json.num 8)
          , ("objection_handling".toList, Json.num 6)
          , ("active_listening".toList, Json.num 7)
          , ("question_quality".toList, Json.num 6)
          , ("call_to_action".toList, Json.num 8)
          , ("engagement".toList, Json.num 7)
          , ("rule_compliance".toList, Json.num 6) ])
      , ("strengths".toList, Json.arr [Json.str ("clear".toList)])
      , ("improvements".toList, Json.arr [])
      , ("summary".toList, Json.str ("ok".toList))
      , ("next_steps".toList, Json.arr [Json.str ("practice".toList)]) ]).isSome = true := by
  rfl

-- ## Analysis failure propagation (C8) and the empty-session report (C9)

/-- C8: the analyzer makes exactly one Oracle call (no internal retry),
returns a structured report exactly when decoding and validation succeed,
and raises an error to its caller otherwise (never a silent downgrade). -/
theorem c8_analysis_failure_propagates (oracle : AnalysisOracle) :
    (analyze_presentation oracle).2 = 1 ∧
    resultOk (analyze_presentation oracle).1 = specAnalysisOk (oracle 0) ∧
    (specAnalysisOk (oracle 0) = false →
      ∃ e, (analyze_presentation oracle).1 = Except.error e) := by
  rcases h : oracle 0 with u | mj
  · exact ⟨by simp [analyze_presentation, h],
           by simp [analyze_presentation, h, specAnalysisOk, resultOk],
           fun _ => ⟨AnalysisError.oracleError, by simp [analyze_presentation, h]⟩⟩
  · cases mj with
    | none =>
      exact ⟨by simp [analyze_presentation, h],
             by simp [analyze_presentation, h, specAnalysisOk, resultOk],
             fun _ => ⟨AnalysisError.invalidJson, by simp [analyze_presentation, h]⟩⟩
    | some j =>
      cases j with
      | null =>
        exact ⟨by simp [analyze_presentation, h],
               by simp [analyze_presentation, h, specAnalysisOk, resultOk],
               fun _ => ⟨AnalysisError.notAnObject, by simp [analyze_presentation, h]⟩⟩
      | bool b =>
        exact ⟨by simp [analyze_presentation, h],
               by simp [analyze_presentation, h, specAnalysisOk, resultOk],
               fun _ => ⟨AnalysisError.notAnObject, by simp [analyze_presentation, h]⟩⟩
      | num q =>
        exact ⟨by simp [analyze_presentation, h],
               by simp [analyze_presentation, h, specAnalysisOk, resultOk],
               fun _ => ⟨AnalysisError.notAnObject, by simp [analyze_presentation, h]⟩⟩
      | str s =>
        exact ⟨by simp [analyze_presentation, h],
               by simp [analyze_presentation, h, specAnalysisOk, resultOk],
               fun _ => ⟨AnalysisError.notAnObject, by simp [analyze_presentation, h]⟩⟩
      | arr xs =>
        exact ⟨by simp [analyze_presentation, h],
               by simp [analyze_presentation, h, specAnalysisOk, resultOk],
               fun _ => ⟨AnalysisError.notAnObject, by simp [analyze_presentation, h]⟩⟩
      | obj f =>
        cases hr : mkSalesCoachingReport f with
        | some r =>
          refine ⟨by simp [analyze_presentation, h, hr],
                  by simp [analyze_presentation, h, hr, specAnalysisOk, resultOk], ?_⟩
          intro hf
          simp [specAnalysisOk, hr] at hf
        | none =>
          exact ⟨by simp [analyze_presentation, h, hr],
                 by simp [analyze_presentation, h, hr, specAnalysisOk, resultOk],
                 fun _ => ⟨AnalysisError.validationError,
                   by simp [analyze_presentation, h, hr]⟩⟩

/-- C8 witness: an Oracle reply the JSON decoder rejects makes exactly one
call and raises an error. -/
theorem c8_witness :
    (analyze_presentation (fun _ => Except.ok none)).2 = 1 ∧
    resultOk (analyze_presentation (fun _ => Except.ok none)).1 =
      specAnalysisOk ((fun (_ : Nat) => (Except.ok none : Except Unit (Option Json))) 0) ∧
    (∃ e, (analyze_presentation (fun _ => Except.ok none)).1 = Except.error e) :=
  ⟨(c8_analysis_failure_propagates (fun _ => Except.ok none)).1,
   (c8_analysis_failure_propagates (fun _ => Except.ok none)).2.1,
   (c8_analysis_failure_propagates (fun _ => Except.ok none)).2.2 rfl⟩

/-- C9: the fallback minimal-report construction for an empty session omits
the required fields and uses undefined ones, so its validation fails and an
end-of-presentation event on an empty history raises a validation error
instead of delivering a report. -/
theorem c9_empty_session_yields_no_report :
    mkSalesCoachingReport fallbackReportKwargs = none ∧
    lookupJson fallbackReportKwargs ("performance_level").toList = none ∧
    lookupJson fallbackReportKwargs ("criteria_scores").toList = none ∧
    lookupJson fallbackReportKwargs ("improvements").toList = none ∧
    lookupJson fallbackReportKwargs ("summary").toList = none ∧
    ∀ (g : Bool) (oracle : AnalysisOracle),
      end_presentation ⟨[], g⟩ oracle = Except.error AnalysisError.validationError := by
  have hmk : mkSalesCoachingReport fallbackReportKwargs = none := by rfl
  refine ⟨hmk, rfl, rfl, rfl, rfl, fun g oracle => ?_⟩
  have ht : full_transcript ([] : List Turn) = [] := rfl
  unfold end_presentation
  dsimp only
  rw [ht, hmk]
  simp

end SalesCoach
